import Mathlib

/-!
Shallow embedding of `src/in_process_server.cpp` (wlcs, the Wayland
Conformance Suite in-process test harness).

The embedding follows the source file:
* `Shim`, `server_ctor`, `ServerImpl.start`/`stop` — `wlcs::Server::Impl`
  (constructor validation of the mandatory shim entry points, lines 39-60);
* `create_client_socket` — `wlcs::Server::Impl::create_client_socket`
  (lines 62-80);
* `throw_wayland_error` — the free function at lines 128-147;
* `client_connect` — the connection-establishment phase of
  `wlcs::Client::Impl::Impl` (lines 152-167): the `try`/`catch` that falls
  back to `wl_display_connect(NULL)` only for `ShimNotImplemented`;
* `dispatch_until` — `wlcs::Client::Impl::dispatch_until` (lines 222-232),
  with an explicit fuel so the possibly-nonterminating loop is total;
* `FrameState` with `add_frame_callback`, `destroy_surface`,
  `frame_callback` — the frame-callback lifecycle of `wlcs::Surface::Impl`
  (lines 318-379), including the process-wide `static wl_callback*
  pending_callback` slot and the destructor that frees whatever the slot
  holds without clearing it;
* `on_release` — `wlcs::ShmBuffer::Impl::on_release` (lines 439-454): one
  pass invoking every notifier, collecting iterators of those that
  returned `false`, then a second pass erasing those (now possibly stale)
  iterators. A C++ vector iterator is a raw pointer, i.e. a fixed offset
  into the buffer, so after earlier erasures it designates whatever element
  currently sits at that offset; `List.eraseIdx` at the recorded raw index
  models this exactly while the index stays in bounds (out of bounds the
  C++ is undefined where the model is a no-op; every input used below
  stays in bounds).
-/

namespace Wlcs

/-! ## Server lifecycle (`wlcs::Server::Impl`) -/

/-- The shim entry points a compositor-under-test supplies.  Each field
mirrors one (possibly null) function pointer: `startOp`/`stopOp` model
`wlcs_server_start`/`wlcs_server_stop` (presence only), and
`createClientSocketOp` models `wlcs_server_create_client_socket` together
with the descriptor a call to it would return. -/
structure Shim where
  startOp : Option Unit
  stopOp : Option Unit
  createClientSocketOp : Option Int
deriving DecidableEq, Repr

/-- Fatal setup errors thrown by `wlcs::Server::Impl::Impl`. -/
inductive SetupErr where
  | missingStart
  | missingStop
deriving DecidableEq, Repr

/-- A successfully constructed `wlcs::Server::Impl`. -/
structure ServerImpl where
  shim : Shim
deriving DecidableEq, Repr

/-- `wlcs::Server::Impl::Impl` (lines 39-50): throws `std::logic_error` if
`wlcs_server_start` is null, then if `wlcs_server_stop` is null. -/
def server_ctor (shim : Shim) : Except SetupErr ServerImpl :=
  if shim.startOp.isNone then .error .missingStart
  else if shim.stopOp.isNone then .error .missingStop
  else .ok ⟨shim⟩

/-- `wlcs::Server::Impl::start` (lines 52-55): calls the stored pointer;
`some ()` is a successful call, `none` a call through a null pointer. -/
def ServerImpl.start (impl : ServerImpl) : Option Unit :=
  impl.shim.startOp

/-- `wlcs::Server::Impl::stop` (lines 57-60). -/
def ServerImpl.stop (impl : ServerImpl) : Option Unit :=
  impl.shim.stopOp

/-- Exceptions escaping `wlcs::Server::Impl::create_client_socket`. -/
inductive SockErr where
  | shimNotImplemented
  | ioError (errno : Nat)
deriving DecidableEq, Repr

/-- `wlcs::Server::Impl::create_client_socket` (lines 62-80): if the shim
supplies the operation, call it; a negative descriptor is a
`std::system_error` carrying `errno`; otherwise the descriptor is
returned.  Without the operation, `ShimNotImplemented` is thrown. -/
def create_client_socket (impl : ServerImpl) (errno : Nat) : Except SockErr Nat :=
  match impl.shim.createClientSocketOp with
  | some fd =>
      if fd < 0 then .error (.ioError errno)
      else .ok fd.toNat
  | none => .error .shimNotImplemented

/-! ## Protocol error translator (`throw_wayland_error`, lines 128-147) -/

/-- Linux `EPROTO`, the protocol-violation sentinel compared against
`wl_display_get_error`. -/
def EPROTO : Nat := 71

/-- The two exceptions `throw_wayland_error` can raise: a generic
`std::system_error` wrapping the connection's error code, or a structured
`wlcs::ProtocolError` carrying the offending object's interface descriptor
and the protocol-level error code. -/
inductive WaylandError where
  | fatal (errno : Nat)
  | protocol (interface : Nat) (code : Nat)
deriving DecidableEq, Repr

/-- `throw_wayland_error` (lines 128-147): `err` is
`wl_display_get_error(display)`; `iface` and `pcode` are what
`wl_display_get_protocol_error` would report for this display. -/
def throw_wayland_error (err iface pcode : Nat) : WaylandError :=
  if err ≠ EPROTO then .fatal err
  else .protocol iface pcode

/-! ## Client connection establishment (`wlcs::Client::Impl::Impl`) -/

/-- Exceptions escaping the `wlcs::Client::Impl` constructor. -/
inductive ClientErr where
  | shimNotImplemented
  | ioError (errno : Nat)
  | connectFailed
deriving DecidableEq, Repr

/-- The connection-establishment phase of `wlcs::Client::Impl::Impl`
(lines 152-167).  `sockResult` is the outcome of
`server.create_client_socket()`; `connectToFd fd` is the display
`wl_display_connect_to_fd(fd)` returns (`none` = NULL); `connectDefault`
is the display `wl_display_connect(NULL)` returns.  Only
`ShimNotImplemented` is caught and triggers the fallback; a
`std::system_error` from the socket call propagates.  A null display is a
fatal `std::runtime_error`. -/
def client_connect (sockResult : Except SockErr Nat)
    (connectToFd : Nat → Option Nat) (connectDefault : Option Nat) :
    Except ClientErr Nat :=
  let attempt : Except ClientErr (Option Nat) :=
    match sockResult with
    | .ok fd => .ok (connectToFd fd)
    | .error .shimNotImplemented => .ok connectDefault
    | .error (.ioError e) => .error (.ioError e)
  match attempt with
  | .error e => .error e
  | .ok none => .error .connectFailed
  | .ok (some d) => .ok d

/-! ## The dispatch loop (`wlcs::Client::Impl::dispatch_until`) -/

/-- Outcome of a bounded run of the dispatch loop: normal return (with the
number of `wl_display_dispatch` cycles performed), an exception from
`throw_wayland_error`, or fuel exhaustion (the loop would still be
running). -/
inductive DispatchResult (S : Type) where
  | ok (s : S) (cycles : Nat)
  | fault (e : WaylandError)
  | fuelExhausted
deriving DecidableEq, Repr

/-- `wlcs::Client::Impl::dispatch_until` (lines 222-232):
`while (!predicate()) { if (wl_display_dispatch(display) < 0)
throw_wayland_error(display); }`.  `step` is one blocking
read-and-process cycle (which may run listeners and so change the
observable state `S`); a failed cycle yields the translated error.  The
fuel bounds how many cycles the bounded run may perform. -/
def dispatch_until {S : Type} (pred : S → Bool)
    (step : S → Except WaylandError S) : Nat → S → DispatchResult S
  | 0, s => if pred s then .ok s 0 else .fuelExhausted
  | fuel + 1, s =>
    if pred s then .ok s 0
    else
      match step s with
      | .error e => .fault e
      | .ok s2 =>
        match dispatch_until pred step fuel s2 with
        | .ok sEnd n => .ok sEnd (n + 1)
        | .fault e => .fault e
        | .fuelExhausted => .fuelExhausted

/-! ## Frame-callback lifecycle (`wlcs::Surface::Impl`, lines 318-379) -/

/-- Observable heap and protocol state for the frame-callback lifecycle.
Callback objects (`wl_callback*`) and heap closures
(`new std::function<void(uint32_t)>`) are numbered in allocation order.
`pendingCallback` is the single process-wide static slot
`wlcs::Surface::Impl::pending_callback` (line 356/377) — note it is one
field of the whole state, not a per-surface attribute.  `closureOf`
associates each callback object with the closure installed as its listener
user data.  `freedClosures` and `destroyedCallbacks` log every `delete` of
a closure and every `wl_callback_destroy`, with multiplicity;
`invocations` logs every `(*frame_callback)(frame_time)` call. -/
structure FrameState where
  pendingCallback : Option Nat
  nextCallbackId : Nat
  nextClosureId : Nat
  closureOf : List (Nat × Nat)
  allocatedClosures : List Nat
  freedClosures : List Nat
  destroyedCallbacks : List Nat
  destroyedSurfaces : List Nat
  frameRequests : List (Nat × Nat)
  invocations : List (Nat × Nat)
deriving DecidableEq, Repr

/-- The state before any surface activity. -/
def initFrameState : FrameState :=
  ⟨none, 0, 0, [], [], [], [], [], [], []⟩

/-- The listener user data of callback `cb`
(`wl_callback_get_user_data`). -/
def lookupClosure (assoc : List (Nat × Nat)) (cb : Nat) : Option Nat :=
  (assoc.find? (fun p => p.1 == cb)).map Prod.snd

/-- `wlcs::Surface::Impl::add_frame_callback` (lines 343-352) called on
surface `surf`: heap-allocates a closure holding `on_frame`, requests a
frame callback with `wl_surface_frame`, stores it in the static
`pending_callback` slot (overwriting whatever was there), and installs the
released closure as the callback's listener user data. -/
def add_frame_callback (surf : Nat) (s : FrameState) : FrameState :=
  let closure := s.nextClosureId
  let cb := s.nextCallbackId
  { s with
    nextClosureId := closure + 1
    nextCallbackId := cb + 1
    allocatedClosures := s.allocatedClosures ++ [closure]
    pendingCallback := some cb
    closureOf := s.closureOf ++ [(cb, closure)]
    frameRequests := s.frameRequests ++ [(surf, cb)] }

/-- `wlcs::Surface::Impl::~Impl` (lines 326-336) run for surface `surf`:
if the static `pending_callback` slot is non-null, `delete` its listener
user data and `wl_callback_destroy` it — whichever surface requested it —
and then destroy the surface.  The destructor does not reset
`pending_callback` to null. -/
def destroy_surface (surf : Nat) (s : FrameState) : FrameState :=
  match s.pendingCallback with
  | some cb =>
    { s with
      freedClosures := s.freedClosures ++
        (match lookupClosure s.closureOf cb with
         | some c => [c]
         | none => [])
      destroyedCallbacks := s.destroyedCallbacks ++ [cb]
      destroyedSurfaces := s.destroyedSurfaces ++ [surf] }
  | none =>
    { s with destroyedSurfaces := s.destroyedSurfaces ++ [surf] }

/-- `wlcs::Surface::Impl::frame_callback` (lines 358-368), the static
trampoline the dispatcher runs when callback `cb` completes with timestamp
`t`: it nulls the static `pending_callback` slot, invokes the closure
passed as its context (the callback's listener user data) with `t`,
destroys the callback object, and deletes the closure. -/
def frame_callback (cb : Nat) (t : Nat) (s : FrameState) : FrameState :=
  let ctx := lookupClosure s.closureOf cb
  { s with
    pendingCallback := none
    invocations := s.invocations ++
      (match ctx with | some c => [(c, t)] | none => [])
    destroyedCallbacks := s.destroyedCallbacks ++ [cb]
    freedClosures := s.freedClosures ++
      (match ctx with | some c => [c] | none => []) }

/-- The trace behind claim C3: surface 0 and surface 1 each request a frame
callback, then surface 0 is destroyed, then surface 1. -/
def c3trace : FrameState :=
  destroy_surface 1 (destroy_surface 0
    (add_frame_callback 1 (add_frame_callback 0 initFrameState)))

/-! ## Buffer-release subscriptions (`wlcs::ShmBuffer::Impl`, lines 433-462) -/

/-- The raw indices, in iteration order, of the notifiers whose callback
returned `false` during the firing pass — the `expired_notifiers` vector
of iterators, an iterator being a fixed offset into the vector's buffer.
A notifier is modelled as an identifier paired with the boolean its
callback returns. -/
def expired_indices (ns : List (Nat × Bool)) : List Nat :=
  (ns.enum.filter (fun p => !p.2.2)).map Prod.fst

/-- `wlcs::ShmBuffer::Impl::on_release` (lines 439-454): one pass invokes
every notifier in insertion order and collects the iterators of those that
returned `false`; a second pass calls `release_notifiers.erase` on each
collected iterator in turn.  Erasing through a stored iterator removes
whatever element currently sits at that raw offset. -/
def on_release (ns : List (Nat × Bool)) : List (Nat × Bool) :=
  (expired_indices ns).foldl (fun acc i => acc.eraseIdx i) ns

/-- Modelled from the spec (§4.5/§8): after a release event the
subscription list holds exactly the subscriptions whose callback returned
`true`, in their original relative order. -/
def release_spec (ns : List (Nat × Bool)) : List (Nat × Bool) :=
  ns.filter (fun p => p.2)

end Wlcs

namespace Wlcs

/-! ## Theorems -/

/-- C1: a release event on a buffer whose three subscriptions return
`false`, `false`, `true` must, per the spec, leave exactly the
`true`-returning subscription.  The code's second pass erases through
iterators captured before any erasure: after the first erase the second
iterator designates the element shifted into its offset, so the list ends
up holding the second `false`-returning subscription and the
`true`-returning one has been removed. -/
theorem on_release_stale_iterator_bug :
    on_release [(0, false), (1, false), (2, true)] = [(1, false)] ∧
    release_spec [(0, false), (1, false), (2, true)] = [(2, true)] ∧
    on_release [(0, false), (1, false), (2, true)] ≠
      release_spec [(0, false), (1, false), (2, true)] := by
  decide

/-- C2: whenever `dispatch_until` returns normally, the predicate holds of
the state at the moment of return; it never returns normally while the
predicate is false. -/
theorem dispatch_until_returns_only_when_pred {S : Type} (pred : S → Bool)
    (step : S → Except WaylandError S) :
    ∀ (fuel : Nat) (s sEnd : S) (n : Nat),
      dispatch_until pred step fuel s = .ok sEnd n → pred sEnd = true := by
  intro fuel
  induction fuel with
  | zero =>
    intro s sEnd n h
    by_cases hp : pred s
    · simp only [dispatch_until, hp, if_true] at h
      cases h
      exact hp
    · simp [dispatch_until, hp] at h
  | succ fuel ih =>
    intro s sEnd n h
    by_cases hp : pred s
    · simp only [dispatch_until, hp, if_true] at h
      cases h
      exact hp
    · simp only [dispatch_until, hp, if_false, Bool.false_eq_true] at h
      cases hs : step s with
      | error e =>
        rw [hs] at h
        simp at h
      | ok s2 =>
        rw [hs] at h
        dsimp only at h
        cases hr : dispatch_until pred step fuel s2 with
        | ok s3 m =>
          rw [hr] at h
          simp only [DispatchResult.ok.injEq] at h
          obtain ⟨h1, _⟩ := h
          subst h1
          exact ih s2 _ m hr
        | fault e =>
          rw [hr] at h
          simp at h
        | fuelExhausted =>
          rw [hr] at h
          simp at h

theorem dispatch_until_returns_only_when_pred_witness :
    dispatch_until (fun n => n == 2) (fun n => Except.ok (n + 1)) 5 0 =
      .ok 2 2 ∧ ((2 : Nat) == 2) = true :=
  ⟨by decide,
   dispatch_until_returns_only_when_pred (fun n => n == 2)
     (fun n => Except.ok (n + 1)) 5 0 2 2 (by decide)⟩

/-- C3: two surfaces each request a frame callback, then both are
destroyed before anything fires.  Because the pending-callback slot is
process-wide and the destructor never clears it, surface 0's closure
(closure 0) is never freed (leak) and surface 1's closure (closure 1) is
freed twice (double free); the dangling slot still holds callback 1 at the
end. -/
theorem surface_destroy_double_free :
    c3trace.allocatedClosures = [0, 1] ∧
    c3trace.freedClosures = [1, 1] ∧
    (0 : Nat) ∉ c3trace.freedClosures ∧
    c3trace.pendingCallback = some 1 := by
  decide

/-- C4: the error translator raises exactly one of two outcomes — a
generic fatal error wrapping the connection's error code when that code is
not the protocol-violation sentinel `EPROTO`, and a structured
`ProtocolError` carrying the offending interface and protocol error code
when it is. -/
theorem throw_wayland_error_dichotomy (err iface pcode : Nat) :
    (err ≠ EPROTO → throw_wayland_error err iface pcode = .fatal err) ∧
    (err = EPROTO → throw_wayland_error err iface pcode = .protocol iface pcode) := by
  constructor
  · intro h
    simp [throw_wayland_error, h]
  · intro h
    simp [throw_wayland_error, h]

theorem throw_wayland_error_dichotomy_witness :
    throw_wayland_error 32 5 7 = .fatal 32 ∧
    throw_wayland_error 71 5 7 = .protocol 5 7 :=
  ⟨(throw_wayland_error_dichotomy 32 5 7).1 (by decide),
   (throw_wayland_error_dichotomy 71 5 7).2 (by decide)⟩

/-- C5: when the compositor completes an outstanding frame request for
callback `cb` carrying closure `c`, the firing invokes the stored closure
exactly once with the frame timestamp, leaves the pending-callback slot
empty immediately afterwards, and releases the callback object and the
closure exactly once each. -/
theorem frame_callback_fires_exactly_once (s : FrameState) (cb t c : Nat)
    (hc : lookupClosure s.closureOf cb = some c) :
    (frame_callback cb t s).pendingCallback = none ∧
    (frame_callback cb t s).invocations = s.invocations ++ [(c, t)] ∧
    (frame_callback cb t s).freedClosures = s.freedClosures ++ [c] ∧
    (frame_callback cb t s).destroyedCallbacks = s.destroyedCallbacks ++ [cb] := by
  simp [frame_callback, hc]

theorem frame_callback_fires_exactly_once_witness :
    (frame_callback 0 42 (add_frame_callback 0 initFrameState)).pendingCallback = none ∧
    (frame_callback 0 42 (add_frame_callback 0 initFrameState)).invocations =
      (add_frame_callback 0 initFrameState).invocations ++ [(0, 42)] ∧
    (frame_callback 0 42 (add_frame_callback 0 initFrameState)).freedClosures =
      (add_frame_callback 0 initFrameState).freedClosures ++ [0] ∧
    (frame_callback 0 42 (add_frame_callback 0 initFrameState)).destroyedCallbacks =
      (add_frame_callback 0 initFrameState).destroyedCallbacks ++ [0] :=
  frame_callback_fires_exactly_once (add_frame_callback 0 initFrameState) 0 42 0 rfl

/-- C6: when `create_client_socket` signals capability-not-implemented,
client construction catches it and falls back to the ambient default
connection — succeeding whenever the fallback yields a live display,
never propagating the capability error to the caller, and raising the
fatal connection-failure error only when the fallback also yields no
display. -/
theorem client_connect_fallback (connectToFd : Nat → Option Nat)
    (connectDefault : Option Nat) :
    (∀ d, connectDefault = some d →
      client_connect (.error .shimNotImplemented) connectToFd connectDefault = .ok d) ∧
    (client_connect (.error .shimNotImplemented) connectToFd connectDefault ≠
      .error .shimNotImplemented) ∧
    (connectDefault = none →
      client_connect (.error .shimNotImplemented) connectToFd connectDefault =
        .error .connectFailed) := by
  refine ⟨?_, ?_, ?_⟩
  · intro d hd
    simp [client_connect, hd]
  · cases connectDefault <;> simp [client_connect]
  · intro hd
    simp [client_connect, hd]

theorem client_connect_fallback_witness :
    client_connect (.error .shimNotImplemented) (fun _ => none) (some 9) = .ok 9 ∧
    client_connect (.error .shimNotImplemented) (fun _ => none) none =
      .error .connectFailed :=
  ⟨(client_connect_fallback (fun _ => none) (some 9)).1 9 rfl,
   (client_connect_fallback (fun _ => none) none).2.2 rfl⟩

/-- C7: `create_client_socket` behaves in exactly three ways — a
distinguished capability-not-implemented signal when the shim does not
supply the operation, a fatal I/O error carrying the system error code
when the supplied operation returns a negative descriptor, and the
descriptor itself otherwise. -/
theorem create_client_socket_trichotomy (impl : ServerImpl) (errno : Nat) :
    (impl.shim.createClientSocketOp = none →
      create_client_socket impl errno = .error .shimNotImplemented) ∧
    (∀ fd : Int, impl.shim.createClientSocketOp = some fd → fd < 0 →
      create_client_socket impl errno = .error (.ioError errno)) ∧
    (∀ fd : Int, impl.shim.createClientSocketOp = some fd → 0 ≤ fd →
      create_client_socket impl errno = .ok fd.toNat) := by
  refine ⟨?_, ?_, ?_⟩
  · intro h
    simp [create_client_socket, h]
  · intro fd h hneg
    simp [create_client_socket, h, hneg]
  · intro fd h hpos
    simp [create_client_socket, h, not_lt.mpr hpos]

theorem create_client_socket_trichotomy_witness :
    create_client_socket ⟨⟨some (), some (), none⟩⟩ 13 = .error .shimNotImplemented ∧
    create_client_socket ⟨⟨some (), some (), some (-1)⟩⟩ 13 = .error (.ioError 13) ∧
    create_client_socket ⟨⟨some (), some (), some 7⟩⟩ 13 = .ok 7 :=
  ⟨(create_client_socket_trichotomy ⟨⟨some (), some (), none⟩⟩ 13).1 rfl,
   (create_client_socket_trichotomy ⟨⟨some (), some (), some (-1)⟩⟩ 13).2.1
     (-1) rfl (by decide),
   (create_client_socket_trichotomy ⟨⟨some (), some (), some 7⟩⟩ 13).2.2
     7 rfl (by decide)⟩

/-- C8: construction of the server handle fails when either mandatory shim
operation is missing, and a successfully constructed handle always holds
both mandatory operations non-null, so `start()` and `stop()` call through
live pointers. -/
theorem server_ctor_validates_mandatory (shim : Shim) :
    ((shim.startOp = none ∨ shim.stopOp = none) →
      ∃ e, server_ctor shim = .error e) ∧
    (∀ impl, server_ctor shim = .ok impl →
      impl.shim.startOp.isSome ∧ impl.shim.stopOp.isSome ∧
      impl.start.isSome ∧ impl.stop.isSome) := by
  constructor
  · rintro (h | h)
    · exact ⟨.missingStart, by simp [server_ctor, h]⟩
    · cases hs : shim.startOp with
      | none => exact ⟨.missingStart, by simp [server_ctor, hs]⟩
      | some u => exact ⟨.missingStop, by simp [server_ctor, hs, h]⟩
  · intro impl h
    cases hs : shim.startOp with
    | none => simp [server_ctor, hs] at h
    | some u =>
      cases ht : shim.stopOp with
      | none => simp [server_ctor, hs, ht] at h
      | some v =>
        simp only [server_ctor, hs, ht, Option.isNone_some, Bool.false_eq_true,
          if_false, Except.ok.injEq] at h
        subst h
        simp [ServerImpl.start, ServerImpl.stop, hs, ht]

theorem server_ctor_validates_mandatory_witness :
    (∃ e, server_ctor ⟨none, some (), some 3⟩ = .error e) ∧
    ((⟨⟨some (), some (), none⟩⟩ : ServerImpl).shim.startOp.isSome ∧
      (⟨⟨some (), some (), none⟩⟩ : ServerImpl).shim.stopOp.isSome ∧
      (⟨⟨some (), some (), none⟩⟩ : ServerImpl).start.isSome ∧
      (⟨⟨some (), some (), none⟩⟩ : ServerImpl).stop.isSome) :=
  ⟨(server_ctor_validates_mandatory ⟨none, some (), some 3⟩).1 (Or.inl rfl),
   (server_ctor_validates_mandatory ⟨some (), some (), none⟩).2
     ⟨⟨some (), some (), none⟩⟩ rfl⟩

/-- C9: the pending-frame-callback slot is one process-wide field shared
by every surface — `add_frame_callback` on any surface stores the new
callback there independently of which surface requested it and of what the
slot held, a second request overwrites the first, and surface destruction
frees whatever callback occupies the slot regardless of which surface
requested it (its effect on the slot is surface-independent). -/
theorem pending_callback_is_shared (s : FrameState) (surf1 surf2 : Nat) :
    ((add_frame_callback surf1 s).pendingCallback = some s.nextCallbackId) ∧
    ((add_frame_callback surf1 s).pendingCallback =
      (add_frame_callback surf2 s).pendingCallback) ∧
    ((add_frame_callback surf2 (add_frame_callback surf1 s)).pendingCallback =
      some (s.nextCallbackId + 1)) ∧
    (∀ cb c, s.pendingCallback = some cb →
      lookupClosure s.closureOf cb = some c →
      (destroy_surface surf1 s).freedClosures = s.freedClosures ++ [c] ∧
      (destroy_surface surf1 s).destroyedCallbacks = s.destroyedCallbacks ++ [cb]) ∧
    ((destroy_surface surf1 s).freedClosures =
      (destroy_surface surf2 s).freedClosures) := by
  refine ⟨rfl, rfl, rfl, ?_, ?_⟩
  · intro cb c hcb hc
    simp [destroy_surface, hcb, hc]
  · cases h : s.pendingCallback <;> simp [destroy_surface, h]

theorem pending_callback_is_shared_witness :
    (destroy_surface 5 (add_frame_callback 0 initFrameState)).freedClosures =
      (add_frame_callback 0 initFrameState).freedClosures ++ [0] ∧
    (destroy_surface 5 (add_frame_callback 0 initFrameState)).destroyedCallbacks =
      (add_frame_callback 0 initFrameState).destroyedCallbacks ++ [0] :=
  (pending_callback_is_shared (add_frame_callback 0 initFrameState) 5 9).2.2.2.1
    0 0 rfl rfl

/-- C10: if the predicate already holds when `dispatch_until` is entered,
it returns immediately with zero dispatch cycles performed — the predicate
is checked before the first blocking read-and-process cycle. -/
theorem dispatch_until_pred_true_immediate {S : Type} (pred : S → Bool)
    (step : S → Except WaylandError S) (fuel : Nat) (s : S)
    (hp : pred s = true) :
    dispatch_until pred step fuel s = .ok s 0 := by
  cases fuel <;> simp [dispatch_until, hp]

theorem dispatch_until_pred_true_immediate_witness :
    ((0 : Nat) == 0) = true ∧
    dispatch_until (fun n => n == 0) (fun n => Except.ok (n + 1)) 3 0 = .ok 0 0 :=
  ⟨by decide,
   dispatch_until_pred_true_immediate (fun n => n == 0)
     (fun n => Except.ok (n + 1)) 3 0 (by decide)⟩

end Wlcs
